import Mathlib

/-!
Verification of the libdatachannel client-benchmark example
(`examples/client-benchmark/main.cpp`): the signaling router, the session
registry, the flow-controlled benchmark send loop, the receive accounting,
the once-per-second stats reporter, and the top-level control flow of `main`.

Each C++ fragment is embedded as an executable Lean definition; the claim
theorems at the end of the file are stated against those definitions.
-/

namespace ClientBenchmark

/-- Size of the fixed benchmark message (`const size_t messageSize = 65535`). -/
def messageSize : Nat := 65535

/-- A byte buffer (the C++ `rtc::binary`, a `std::vector<byte>`): its size
and its contents, the latter as a function from index to byte value
(modelled as `Nat`). -/
structure ByteBuf where
  size : Nat
  byteAt : Nat → Nat

/-- The benchmark message: `messageSize` bytes, each filled with `0xFF` by
`main` (`fill(messageData.begin(), messageData.end(), byte(0xFF))`). -/
def messageData : ByteBuf := ⟨messageSize, fun _ => 255⟩

/-- Observable behaviour of a data channel during one send burst, indexed by
the number of `send` calls completed so far within the burst: `buffered k` is
the value `bufferedAmount()` returns when queried after `k` successful sends,
`isOpen k` the value `isOpen()` returns there, and `sendOk k` whether send
number `k` returns normally (`false` means `send` throws). -/
structure ChannelEnv where
  buffered : Nat → Nat
  isOpen : Nat → Bool
  sendOk : Nat → Bool

/-- Why a send burst stopped. -/
inductive BurstStop where
  | bufferNonzero
  | sendThrew
  | channelClosed
  | fuelOut
deriving DecidableEq

/-- Result of one send burst: number of successful sends, final value of the
`sentSize` accumulator contribution, and the reason the loop stopped. -/
structure BurstResult where
  sends : Nat
  sent : Nat
  stop : BurstStop
deriving DecidableEq

/-- The first send burst, run by the `dc->onOpen` handler (and identically by
the `pc->onDataChannel` handler): `while (bufferedAmount() == 0) { send(...);
sentSize += messageData.size(); }` wrapped in `try/catch`. `k` counts the
sends done so far, `acc` is the `sentSize` accumulator, and the last argument
is fuel bounding the number of iterations modelled. A throwing `send` ends the
burst with `BurstStop.sendThrew` (the C++ catch block logs and returns), and
the increment of `sentSize` for that send is skipped, exactly as in the
source. -/
def sendLoopOpen (env : ChannelEnv) : Nat → Nat → Nat → BurstResult
  | k, acc, 0 => ⟨k, acc, BurstStop.fuelOut⟩
  | k, acc, fuel + 1 =>
    if env.buffered k = 0 then
      if env.sendOk k then sendLoopOpen env (k + 1) (acc + messageData.size) fuel
      else ⟨k, acc, BurstStop.sendThrew⟩
    else ⟨k, acc, BurstStop.bufferNonzero⟩

/-- A resume send burst, run by the `dc->onBufferedAmountLow` handlers:
`while (isOpen() && bufferedAmount() == 0) { send(...); sentSize += ...; }`
wrapped in `try/catch`. Identical to `sendLoopOpen` except for the extra
`isOpen()` conjunct checked first on every iteration. -/
def sendLoopResume (env : ChannelEnv) : Nat → Nat → Nat → BurstResult
  | k, acc, 0 => ⟨k, acc, BurstStop.fuelOut⟩
  | k, acc, fuel + 1 =>
    if env.isOpen k then
      if env.buffered k = 0 then
        if env.sendOk k then sendLoopResume env (k + 1) (acc + messageData.size) fuel
        else ⟨k, acc, BurstStop.sendThrew⟩
      else ⟨k, acc, BurstStop.bufferNonzero⟩
    else ⟨k, acc, BurstStop.channelClosed⟩

/-- A message delivered to a data-channel `onMessage` handler: the C++
`variant<binary, string>`. -/
inductive ChannelPayload where
  | binaryData (bytes : ByteBuf)
  | textData (s : String)

/-- Whether the payload holds the binary alternative
(`holds_alternative<binary>(data)`). -/
def ChannelPayload.isBinary : ChannelPayload → Bool
  | ChannelPayload.binaryData _ => true
  | ChannelPayload.textData _ => false

/-- Byte length of the payload (`get<binary>(data).size()` for binary). -/
def ChannelPayload.byteLength : ChannelPayload → Nat
  | ChannelPayload.binaryData bytes => bytes.size
  | ChannelPayload.textData s => s.length

/-- The two window counters `receivedSize` and `sentSize` (atomics in the
source). -/
structure Counters where
  receivedSize : Nat
  sentSize : Nat
deriving DecidableEq

/-- The `dc->onMessage` handler: `if (holds_alternative<binary>(data))
receivedSize += get<binary>(data).size();` — text payloads change nothing. -/
def onMessageHandler (p : ChannelPayload) (c : Counters) : Counters :=
  match p with
  | ChannelPayload.binaryData bytes => { c with receivedSize := c.receivedSize + bytes.size }
  | ChannelPayload.textData _ => c

/-- One tick of the stats loop in `main`: it prints
`receivedSize.load() / 1024` and `sentSize.load() / 1024` (Nat division,
i.e. flooring) and then resets both counters to `0`
(`receivedSize = sentSize = 0;`). Returned as (emitted KB pair, counters
after the tick). -/
def statsTick (c : Counters) : (Nat × Nat) × Counters :=
  ((c.receivedSize / 1024, c.sentSize / 1024), ⟨0, 0⟩)

/-- Role of a peer session. The C++ example does not store a role field; per
the spec's data model (§3), sessions created by the router in answer to an
inbound offer are `answerer`, and the session created by `main` for the
locally entered identifier is `offerer`. No code path writes to it after
creation. -/
inductive Role where
  | offerer
  | answerer
deriving DecidableEq

/-- A peer session: one `PeerConnection` with the observable signaling state
the example drives — the remote descriptions applied via
`setRemoteDescription` (as (type, sdp) pairs, in order) and the remote
candidates applied via `addRemoteCandidate` (as (candidate, mid) pairs). -/
structure Session where
  role : Role
  remoteDescs : List (String × String)
  remoteCands : List (String × String)
deriving DecidableEq

/-- The session registry `peerConnectionMap`, as an association list from
identifier to session. -/
abbrev Reg : Type := List (String × Session)

/-- Lookup (`peerConnectionMap.find(id)`). -/
def lookupReg : Reg → String → Option Session
  | [], _ => none
  | (k, s) :: rest, id => if k = id then some s else lookupReg rest id

/-- `unordered_map::emplace(id, s)`: inserts only if `id` is absent; when the
key is already present the existing mapped session is kept unchanged. -/
def emplaceReg : Reg → String → Session → Reg
  | [], id, s => [(id, s)]
  | (k, t) :: rest, id, s =>
    if k = id then (k, t) :: rest else (k, t) :: emplaceReg rest id s

/-- Apply `f` to the session mapped to `id` (mutation of the shared
`PeerConnection` object reached through the map). -/
def updateReg : Reg → String → (Session → Session) → Reg
  | [], _, _ => []
  | (k, s) :: rest, id, f =>
    if k = id then (k, f s) :: rest else (k, s) :: updateReg rest id f

/-- A freshly constructed session (`make_shared<PeerConnection>(config)` plus
callback wiring; no remote state applied yet). -/
def newSession (role : Role) : Session := ⟨role, [], []⟩

/-- `createPeerConnection(config, wws, id)`: constructs a fresh session,
executes `peerConnectionMap.emplace(id, pc)`, and returns the fresh session
(which, when `id` was already present, is not the one left in the map). -/
def createPeerConnection (role : Role) (id : String) (reg : Reg) : Session × Reg :=
  (newSession role, emplaceReg reg id (newSession role))

/-- Modelled from the spec (§4.2): `createSession(id, role)` "fails with
`DuplicateSessionError` if `id` already present", otherwise constructs and
inserts a fresh session. Stated here only to compare with the source's
`createPeerConnection`. -/
def createSessionSpec (id : String) (role : Role) (reg : Reg) :
    Except String (Session × Reg) :=
  if (lookupReg reg id).isSome then Except.error "DuplicateSessionError"
  else Except.ok (newSession role, emplaceReg reg id (newSession role))

/-- `pc->setRemoteDescription(Description(sdp, type))` on the session. -/
def applyDesc (s : Session) (t sdp : String) : Session :=
  { s with remoteDescs := s.remoteDescs ++ [(t, sdp)] }

/-- `pc->addRemoteCandidate(Candidate(sdp, mid))` on the session. -/
def applyCand (s : Session) (cand mid : String) : Session :=
  { s with remoteCands := s.remoteCands ++ [(cand, mid)] }

/-- A parsed signaling envelope; `etype` models the JSON field `type`.
Fields are optional because the JSON object may lack any of them. -/
structure Envelope where
  id : Option String
  etype : Option String
  description : Option String
  candidate : Option String
  mid : Option String
deriving DecidableEq

/-- The dispatch tail of the `ws->onMessage` handler, once a session for `id`
has been found or created: `if (type == "offer" || type == "answer")`
read `message["description"]` and apply it as the remote description,
`else if (type == "candidate")` read `message["candidate"]` and
`message["mid"]` and apply them as a remote candidate; any other type does
nothing. Reading an absent JSON field throws (`json::get<string>` on null),
modelled as `Except.error`. -/
def dispatchEnvelope (reg : Reg) (id t : String) (env : Envelope) :
    Except String Reg :=
  if t = "offer" ∨ t = "answer" then
    match env.description with
    | some sdp => Except.ok (updateReg reg id (fun s => applyDesc s t sdp))
    | none => Except.error "DecodeError"
  else if t = "candidate" then
    match env.candidate, env.mid with
    | some cand, some mid => Except.ok (updateReg reg id (fun s => applyCand s cand mid))
    | some _, none => Except.error "DecodeError"
    | none, _ => Except.error "DecodeError"
  else Except.ok reg

/-- The `ws->onMessage` routing logic: drop the message if `id` or `type` is
absent; otherwise use the session found in the registry, or create one
(answering) when `type == "offer"`, or drop the message when the identifier
is unknown and the type is anything else; finally dispatch the envelope to
the chosen session. -/
def routeMessage (reg : Reg) (env : Envelope) : Except String Reg :=
  match env.id with
  | none => Except.ok reg
  | some id =>
    match env.etype with
    | none => Except.ok reg
    | some t =>
      if (lookupReg reg id).isSome then
        dispatchEnvelope reg id t env
      else if t = "offer" then
        dispatchEnvelope (createPeerConnection Role.answerer id reg).2 id t env
      else
        Except.ok reg

/-- An offer envelope `{id, type: "offer", description}`. -/
def offerEnvelope (id sdp : String) : Envelope :=
  ⟨some id, some "offer", some sdp, none, none⟩

/-- An event delivered to the WebSocket open/error callbacks. -/
inductive WsEvent where
  | opened
  | errored
deriving DecidableEq

/-- Outcome of `wsFuture.get()`: `ws->onOpen` runs `wsPromise.set_value()` and
`ws->onError` runs `wsPromise.set_exception(...)`, so the first of the two
events decides whether `get()` returns normally (`some true`), throws
(`some false`), or never returns (`none`, no event ever fires). -/
def wsPromiseResult : List WsEvent → Option Bool
  | [] => none
  | WsEvent.opened :: _ => some true
  | WsEvent.errored :: _ => some false

/-- Observable outcome of one run of `main` past the point where
`wsFuture.get()` is reached. `clearedRegistry` records whether the explicit
`dataChannelMap.clear(); peerConnectionMap.clear();` statements executed
(they appear only in the normal end-of-benchmark path and in the top-level
catch handler); `readRemoteId` whether `cin >> id` executed;
`createdSession` whether `main` called `createPeerConnection` /
`createDataChannel` for the entered identifier; `ranBenchmark` whether the
stats loop ran; `printedInvalidId` whether the "Invalid remote ID (This is
my local ID)" diagnostic was printed. -/
structure MainResult where
  exitCode : Int
  clearedRegistry : Bool
  readRemoteId : Bool
  createdSession : Bool
  ranBenchmark : Bool
  printedInvalidId : Bool
deriving DecidableEq

/-- Control flow of `main` from `wsFuture.get()` onward. `wsOk` abstracts
whether `wsFuture.get()` returns normally (first signaling event was
`onOpen`) — if not, the `runtime_error` propagates to the top-level catch,
which clears both maps and returns `-1`. Then `cin >> id` is read; an empty
`id` returns `0` immediately and `id == localId` prints the diagnostic and
returns `0`, in both cases without reaching the `clear()` calls. Otherwise
the session and channel are created and the benchmark runs; `benchOk`
abstracts whether any exception escapes that section to the top-level catch
(which clears and returns `-1`); the normal path clears and returns `0`. -/
def mainRun (wsOk : Bool) (remoteId localId : String) (benchOk : Bool) : MainResult :=
  if wsOk then
    if remoteId = "" then ⟨0, false, true, false, false, false⟩
    else if remoteId = localId then ⟨0, false, true, false, false, true⟩
    else if benchOk then ⟨0, true, true, true, true, false⟩
    else ⟨-1, true, true, true, true, false⟩
  else ⟨-1, true, false, false, false, false⟩

/-- `main` including the wait on the signaling promise: the first
open/error WsEvent decides `wsFuture.get()`; with no event, `get()` blocks
forever and none of the rest of `main` runs (`none`). -/
def mainWithSignaling (events : List WsEvent) (remoteId localId : String)
    (benchOk : Bool) : Option MainResult :=
  match wsPromiseResult events with
  | none => none
  | some ok => some (mainRun ok remoteId localId benchOk)

/-- The 62-symbol alphabet of `randomId`. -/
def characters : List Char :=
  String.toList "0123456789ABCDEFGHIJKLMNOPQRSTUVWXYZabcdefghijklmnopqrstuvwxyz"

/-- `randomId(length)`: a string of `length` characters drawn from
`characters`; the random draws are abstracted as `pick`, reduced modulo the
alphabet size exactly as `uniform_int_distribution` keeps them in range. -/
def randomId (len : Nat) (pick : Nat → Nat) : String :=
  String.mk ((List.range len).map (fun k => characters.getD (pick k % characters.length) 'x'))

/-- Concrete channel behaviour: the buffered amount stays `0` for the first
two sends and becomes `1` afterwards; the channel stays open and every send
succeeds. -/
def envTwoSends : ChannelEnv :=
  ⟨fun j => if j < 2 then 0 else 1, fun _ => true, fun _ => true⟩

/-- Concrete channel behaviour: the channel is closed from the start while
the buffered amount is `0` and every send would succeed. -/
def envClosedIdle : ChannelEnv :=
  ⟨fun _ => 0, fun _ => false, fun _ => true⟩

/-- Concrete channel behaviour: the channel is closed from the start, the
buffered amount is `0` before the first send and `1` afterwards, and every
send succeeds. -/
def envClosedOneSend : ChannelEnv :=
  ⟨fun j => if j < 1 then 0 else 1, fun _ => false, fun _ => true⟩

/-- Concrete channel behaviour: open channel, buffered amount `0` before the
first send and `1` afterwards, every send succeeds. -/
def envOpenOneSend : ChannelEnv :=
  ⟨fun j => if j < 1 then 0 else 1, fun _ => true, fun _ => true⟩

/-- A registry holding one session, for identifier `"AB"`. -/
def regAB : Reg := [("AB", ⟨Role.answerer, [("offer", "sdpAB")], []⟩)]

/-- The counters after two binary messages of `messageSize` bytes arrive
within one reporting window. -/
def twoBinaryWindow : Counters :=
  onMessageHandler (ChannelPayload.binaryData messageData)
    (onMessageHandler (ChannelPayload.binaryData messageData) ⟨0, 0⟩)

/-!  Helper lemmas about the registry operations. -/

theorem lookupReg_emplaceReg (reg : Reg) (id : String) (s : Session)
    (h : lookupReg reg id = none) :
    lookupReg (emplaceReg reg id s) id = some s := by
  induction reg with
  | nil => simp [emplaceReg, lookupReg]
  | cons p rest ih =>
    obtain ⟨k, t⟩ := p
    by_cases hk : k = id
    · simp [lookupReg, hk] at h
    · simp only [lookupReg, hk, if_false] at h
      simp [emplaceReg, hk, lookupReg, ih h]

theorem emplaceReg_length (reg : Reg) (id : String) (s : Session)
    (h : lookupReg reg id = none) :
    (emplaceReg reg id s).length = reg.length + 1 := by
  induction reg with
  | nil => simp [emplaceReg]
  | cons p rest ih =>
    obtain ⟨k, t⟩ := p
    by_cases hk : k = id
    · simp [lookupReg, hk] at h
    · simp only [lookupReg, hk, if_false] at h
      simp [emplaceReg, hk, ih h]

theorem emplaceReg_present (reg : Reg) (id : String) (s0 s : Session)
    (h : lookupReg reg id = some s0) :
    emplaceReg reg id s = reg := by
  induction reg with
  | nil => simp [lookupReg] at h
  | cons p rest ih =>
    obtain ⟨k, t⟩ := p
    by_cases hk : k = id
    · simp [emplaceReg, hk]
    · simp only [lookupReg, hk, if_false] at h
      simp [emplaceReg, hk, ih h]

theorem lookupReg_updateReg (reg : Reg) (id : String) (f : Session → Session)
    (s0 : Session) (h : lookupReg reg id = some s0) :
    lookupReg (updateReg reg id f) id = some (f s0) := by
  induction reg with
  | nil => simp [lookupReg] at h
  | cons p rest ih =>
    obtain ⟨k, t⟩ := p
    by_cases hk : k = id
    · simp only [lookupReg, hk, if_true, Option.some.injEq] at h
      simp [updateReg, hk, lookupReg, h]
    · simp only [lookupReg, hk, if_false] at h
      simp [updateReg, hk, lookupReg, ih h]

theorem updateReg_length (reg : Reg) (id : String) (f : Session → Session) :
    (updateReg reg id f).length = reg.length := by
  induction reg with
  | nil => rfl
  | cons p rest ih =>
    obtain ⟨k, t⟩ := p
    by_cases hk : k = id
    · simp [updateReg, hk]
    · simp [updateReg, hk, ih]

/-- Claim C9: for every inbound payload, the receive handler adds the
payload's byte length to `receivedSize` exactly when the payload is binary
(text payloads leave the counter unchanged), and never touches `sentSize`. -/
theorem c9_receive_accounting (p : ChannelPayload) (c : Counters) :
    onMessageHandler p c =
      ⟨c.receivedSize + (if p.isBinary then p.byteLength else 0), c.sentSize⟩ := by
  cases p <;>
    simp [onMessageHandler, ChannelPayload.isBinary, ChannelPayload.byteLength]

/-- The benchmark message is 65535 bytes long. -/
theorem messageData_size : messageData.size = messageSize := rfl

/-- Claim C6 fails as stated: after exactly two inbound binary messages of
65535 bytes in one reporting window the counter holds `131070`, and the
reporter emits `131070 / 1024 = 127` KB for that tick — not 128. -/
theorem c6_report_is_127_not_128 :
    twoBinaryWindow.receivedSize = 131070 ∧
    (statsTick twoBinaryWindow).1.1 = 127 ∧
    (statsTick twoBinaryWindow).1.1 ≠ 128 := by
  refine ⟨rfl, rfl, ?_⟩
  decide

/-- Claim C6 (amended): if exactly two inbound binary messages of 65535 bytes
each arrive within one reporting window, the reporter emits
`receivedWindow / 1024 = 127` KB for that tick (flooring integer division of
`131070`), and the window counter is reset to `0` afterwards. -/
theorem c6_two_messages_report (d1 d2 : ByteBuf) (s : Nat)
    (h1 : d1.size = messageSize) (h2 : d2.size = messageSize) :
    statsTick (onMessageHandler (ChannelPayload.binaryData d2)
        (onMessageHandler (ChannelPayload.binaryData d1) ⟨0, s⟩)) =
      ((127, s / 1024), ⟨0, 0⟩) := by
  simp only [onMessageHandler, statsTick]
  rw [h1, h2]
  norm_num [messageSize]

/-- Witness for the amended C6 theorem at the concrete benchmark message. -/
theorem c6_two_messages_report_witness :
    statsTick (onMessageHandler (ChannelPayload.binaryData messageData)
        (onMessageHandler (ChannelPayload.binaryData messageData) ⟨0, 0⟩)) =
      ((127, 0), ⟨0, 0⟩) :=
  c6_two_messages_report messageData messageData 0 messageData_size messageData_size

/-- Claim C3: routing a well-formed `candidate` or `answer` envelope whose
identifier is not currently in the registry is a no-op — the registry, which
holds all session state (sessions, applied remote descriptions and
candidates), is returned unchanged and no session is created. -/
theorem c3_unknown_id_noop (reg : Reg) (id t : String)
    (d cand mid : Option String)
    (h1 : lookupReg reg id = none) (h2 : t = "candidate" ∨ t = "answer") :
    routeMessage reg ⟨some id, some t, d, cand, mid⟩ = Except.ok reg := by
  rcases h2 with rfl | rfl <;> simp [routeMessage, h1]

/-- Witness for C3 at a concrete registry and envelope. -/
theorem c3_unknown_id_noop_witness :
    lookupReg [] "AB12" = none ∧
    routeMessage [] ⟨some "AB12", some "candidate", none, some "candA", some "0"⟩ =
      Except.ok [] :=
  ⟨rfl, c3_unknown_id_noop [] "AB12" "candidate" none (some "candA") (some "0")
    rfl (Or.inl rfl)⟩

/-- Claim C4: for an identifier not in the registry, routing one offer
envelope creates exactly one session — registered under that identifier with
role `answerer` and the offer's description applied once; routing a second
offer for the same identifier creates no second session and leaves the
session's role unchanged, only dispatching the second description to the
existing session. -/
theorem c4_offer_idempotent_registry (reg : Reg) (id sdp1 sdp2 : String)
    (h : lookupReg reg id = none) :
    ∃ reg1 reg2,
      routeMessage reg (offerEnvelope id sdp1) = Except.ok reg1 ∧
      reg1.length = reg.length + 1 ∧
      lookupReg reg1 id = some ⟨Role.answerer, [("offer", sdp1)], []⟩ ∧
      routeMessage reg1 (offerEnvelope id sdp2) = Except.ok reg2 ∧
      reg2.length = reg1.length ∧
      lookupReg reg2 id =
        some ⟨Role.answerer, [("offer", sdp1), ("offer", sdp2)], []⟩ := by
  have h0 : lookupReg (emplaceReg reg id (newSession Role.answerer)) id
      = some (newSession Role.answerer) := lookupReg_emplaceReg reg id _ h
  have e1 : routeMessage reg (offerEnvelope id sdp1)
      = Except.ok (updateReg (emplaceReg reg id (newSession Role.answerer)) id
          (fun s => applyDesc s "offer" sdp1)) := by
    simp [routeMessage, offerEnvelope, dispatchEnvelope, createPeerConnection, h]
  have l1 : lookupReg (updateReg (emplaceReg reg id (newSession Role.answerer)) id
        (fun s => applyDesc s "offer" sdp1)) id
      = some ⟨Role.answerer, [("offer", sdp1)], []⟩ :=
    lookupReg_updateReg _ _ _ _ h0
  have len1 : (updateReg (emplaceReg reg id (newSession Role.answerer)) id
        (fun s => applyDesc s "offer" sdp1)).length = reg.length + 1 := by
    rw [updateReg_length, emplaceReg_length reg id _ h]
  have e2 : routeMessage (updateReg (emplaceReg reg id (newSession Role.answerer)) id
        (fun s => applyDesc s "offer" sdp1)) (offerEnvelope id sdp2)
      = Except.ok (updateReg (updateReg (emplaceReg reg id (newSession Role.answerer)) id
          (fun s => applyDesc s "offer" sdp1)) id
          (fun s => applyDesc s "offer" sdp2)) := by
    simp [routeMessage, offerEnvelope, dispatchEnvelope, l1]
  have l2 : lookupReg (updateReg (updateReg (emplaceReg reg id (newSession Role.answerer)) id
        (fun s => applyDesc s "offer" sdp1)) id
        (fun s => applyDesc s "offer" sdp2)) id
      = some ⟨Role.answerer, [("offer", sdp1), ("offer", sdp2)], []⟩ :=
    lookupReg_updateReg _ _ _ _ l1
  exact ⟨_, _, e1, len1, l1, e2, updateReg_length _ _ _, l2⟩

/-- Witness for C4 at a concrete empty registry. -/
theorem c4_offer_idempotent_registry_witness :
    ∃ reg1 reg2,
      routeMessage [] (offerEnvelope "AB12" "sdpA") = Except.ok reg1 ∧
      reg1.length = 1 ∧
      lookupReg reg1 "AB12" = some ⟨Role.answerer, [("offer", "sdpA")], []⟩ ∧
      routeMessage reg1 (offerEnvelope "AB12" "sdpB") = Except.ok reg2 ∧
      reg2.length = reg1.length ∧
      lookupReg reg2 "AB12" =
        some ⟨Role.answerer, [("offer", "sdpA"), ("offer", "sdpB")], []⟩ :=
  c4_offer_idempotent_registry [] "AB12" "sdpA" "sdpB" rfl

/-- Claim C5 fails as stated: with `"AB"` already registered, the spec-side
`createSession` rejects with `DuplicateSessionError`, but the source's
`createPeerConnection` does not fail — it returns normally with a fresh
session while the registry is left unchanged (the `emplace` keeps the
existing entry). -/
theorem c5_duplicate_create_no_error :
    createSessionSpec "AB" Role.offerer regAB = Except.error "DuplicateSessionError" ∧
    createPeerConnection Role.offerer "AB" regAB = (newSession Role.offerer, regAB) := by
  constructor <;> rfl

/-- Claim C5 (amended): calling `createPeerConnection` with an identifier
already present in the registry does not fail and does not replace the
mapping — the existing session stays mapped to the identifier and the
returned fresh session is not inserted (the registry is unchanged). -/
theorem c5_duplicate_create_keeps_existing (reg : Reg) (id : String)
    (role : Role) (s0 : Session) (h : lookupReg reg id = some s0) :
    createPeerConnection role id reg = (newSession role, reg) ∧
    lookupReg (createPeerConnection role id reg).2 id = some s0 := by
  have he : emplaceReg reg id (newSession role) = reg :=
    emplaceReg_present reg id s0 _ h
  constructor
  · simp [createPeerConnection, he]
  · simp [createPeerConnection, he, h]

/-- Witness for the amended C5 theorem at a concrete registry. -/
theorem c5_duplicate_create_keeps_existing_witness :
    createPeerConnection Role.offerer "AB" regAB = (newSession Role.offerer, regAB) ∧
    lookupReg (createPeerConnection Role.offerer "AB" regAB).2 "AB" =
      some ⟨Role.answerer, [("offer", "sdpAB")], []⟩ :=
  c5_duplicate_create_keeps_existing regAB "AB" Role.offerer
    ⟨Role.answerer, [("offer", "sdpAB")], []⟩ rfl

/-- Invariant of the channel-open burst loop: starting from `k` sends done
and accumulator `acc`, the loop only adds `messageSize` per successful send,
every iterated send happened with buffered amount `0` and a succeeding
`send`, and the stop reason is faithful to the guard (the first burst can
never stop because the channel closed — it does not consult `isOpen`). -/
theorem sendLoopOpen_inv (env : ChannelEnv) :
    ∀ fuel k acc : Nat,
      k ≤ (sendLoopOpen env k acc fuel).sends ∧
      (sendLoopOpen env k acc fuel).sent
        = acc + messageSize * ((sendLoopOpen env k acc fuel).sends - k) ∧
      (∀ j, k ≤ j → j < (sendLoopOpen env k acc fuel).sends →
        env.buffered j = 0 ∧ env.sendOk j = true) ∧
      ((sendLoopOpen env k acc fuel).stop = BurstStop.bufferNonzero →
        env.buffered (sendLoopOpen env k acc fuel).sends ≠ 0) ∧
      ((sendLoopOpen env k acc fuel).stop = BurstStop.sendThrew →
        env.buffered (sendLoopOpen env k acc fuel).sends = 0 ∧
        env.sendOk (sendLoopOpen env k acc fuel).sends = false) ∧
      (sendLoopOpen env k acc fuel).stop ≠ BurstStop.channelClosed := by
  intro fuel
  induction fuel with
  | zero =>
    intro k acc
    refine ⟨Nat.le_refl _, by simp [sendLoopOpen], ?_, ?_, ?_, by simp [sendLoopOpen]⟩
    · intro j hj1 hj2
      simp only [sendLoopOpen] at hj2
      omega
    · intro hstop
      simp [sendLoopOpen] at hstop
    · intro hstop
      simp [sendLoopOpen] at hstop
  | succ n ih =>
    intro k acc
    by_cases hb : env.buffered k = 0
    · by_cases hs : env.sendOk k = true
      · have hstep : sendLoopOpen env k acc (n + 1)
            = sendLoopOpen env (k + 1) (acc + messageData.size) n := by
          simp [sendLoopOpen, hb, hs]
        rcases ih (k + 1) (acc + messageData.size) with ⟨h1, h2, h3, h4, h5, h6⟩
        rw [hstep]
        refine ⟨by omega, ?_, ?_, h4, h5, h6⟩
        · simp only [messageData_size, messageSize] at h1 h2 ⊢
          rw [h2]
          omega
        · intro j hj1 hj2
          rcases Nat.eq_or_lt_of_le hj1 with heq | hlt
          · exact heq ▸ ⟨hb, hs⟩
          · exact h3 j hlt hj2
      · have hstep : sendLoopOpen env k acc (n + 1) = ⟨k, acc, BurstStop.sendThrew⟩ := by
          simp [sendLoopOpen, hb, hs]
        rw [hstep]
        refine ⟨Nat.le_refl _, by simp, ?_, ?_, ?_, by simp⟩
        · intro j hj1 hj2
          simp only at hj2
          omega
        · intro hstop
          simp at hstop
        · intro _
          exact ⟨hb, by simpa using hs⟩
    · have hstep : sendLoopOpen env k acc (n + 1) = ⟨k, acc, BurstStop.bufferNonzero⟩ := by
        simp [sendLoopOpen, hb]
      rw [hstep]
      refine ⟨Nat.le_refl _, by simp, ?_, ?_, ?_, by simp⟩
      · intro j hj1 hj2
        simp only at hj2
        omega
      · intro _
        simpa using hb
      · intro hstop
        simp at hstop

/-- Invariant of the resume burst loop: like `sendLoopOpen_inv`, with the
additional facts that every iterated send happened with the channel open and
that the loop stops with `channelClosed` exactly when `isOpen` turned
false. -/
theorem sendLoopResume_inv (env : ChannelEnv) :
    ∀ fuel k acc : Nat,
      k ≤ (sendLoopResume env k acc fuel).sends ∧
      (sendLoopResume env k acc fuel).sent
        = acc + messageSize * ((sendLoopResume env k acc fuel).sends - k) ∧
      (∀ j, k ≤ j → j < (sendLoopResume env k acc fuel).sends →
        env.isOpen j = true ∧ env.buffered j = 0 ∧ env.sendOk j = true) ∧
      ((sendLoopResume env k acc fuel).stop = BurstStop.channelClosed →
        env.isOpen (sendLoopResume env k acc fuel).sends = false) ∧
      ((sendLoopResume env k acc fuel).stop = BurstStop.bufferNonzero →
        env.isOpen (sendLoopResume env k acc fuel).sends = true ∧
        env.buffered (sendLoopResume env k acc fuel).sends ≠ 0) ∧
      ((sendLoopResume env k acc fuel).stop = BurstStop.sendThrew →
        env.isOpen (sendLoopResume env k acc fuel).sends = true ∧
        env.buffered (sendLoopResume env k acc fuel).sends = 0 ∧
        env.sendOk (sendLoopResume env k acc fuel).sends = false) := by
  intro fuel
  induction fuel with
  | zero =>
    intro k acc
    refine ⟨Nat.le_refl _, by simp [sendLoopResume], ?_, ?_, ?_, ?_⟩
    · intro j hj1 hj2
      simp only [sendLoopResume] at hj2
      omega
    · intro hstop
      simp [sendLoopResume] at hstop
    · intro hstop
      simp [sendLoopResume] at hstop
    · intro hstop
      simp [sendLoopResume] at hstop
  | succ n ih =>
    intro k acc
    by_cases ho : env.isOpen k = true
    · by_cases hb : env.buffered k = 0
      · by_cases hs : env.sendOk k = true
        · have hstep : sendLoopResume env k acc (n + 1)
              = sendLoopResume env (k + 1) (acc + messageData.size) n := by
            simp [sendLoopResume, ho, hb, hs]
          rcases ih (k + 1) (acc + messageData.size) with ⟨h1, h2, h3, h4, h5, h6⟩
          rw [hstep]
          refine ⟨by omega, ?_, ?_, h4, h5, h6⟩
          · simp only [messageData_size, messageSize] at h1 h2 ⊢
            rw [h2]
            omega
          · intro j hj1 hj2
            rcases Nat.eq_or_lt_of_le hj1 with heq | hlt
            · exact heq ▸ ⟨ho, hb, hs⟩
            · exact h3 j hlt hj2
        · have hstep : sendLoopResume env k acc (n + 1) = ⟨k, acc, BurstStop.sendThrew⟩ := by
            simp [sendLoopResume, ho, hb, hs]
          rw [hstep]
          refine ⟨Nat.le_refl _, by simp, ?_, ?_, ?_, ?_⟩
          · intro j hj1 hj2
            simp only at hj2
            omega
          · intro hstop
            simp at hstop
          · intro hstop
            simp at hstop
          · intro _
            exact ⟨ho, hb, by simpa using hs⟩
      · have hstep : sendLoopResume env k acc (n + 1) = ⟨k, acc, BurstStop.bufferNonzero⟩ := by
          simp [sendLoopResume, ho, hb]
        rw [hstep]
        refine ⟨Nat.le_refl _, by simp, ?_, ?_, ?_, ?_⟩
        · intro j hj1 hj2
          simp only at hj2
          omega
        · intro hstop
          simp at hstop
        · intro _
          exact ⟨ho, by simpa using hb⟩
        · intro hstop
          simp at hstop
    · have hstep : sendLoopResume env k acc (n + 1) = ⟨k, acc, BurstStop.channelClosed⟩ := by
        simp [sendLoopResume, ho]
      rw [hstep]
      refine ⟨Nat.le_refl _, by simp, ?_, ?_, ?_, ?_⟩
      · intro j hj1 hj2
        simp only at hj2
        omega
      · intro _
        simpa using ho
      · intro hstop
        simp at hstop
      · intro hstop
        simp at hstop

/-- Claim C1 (amended): in every send burst the engine sends the fixed
65535-byte message exactly as long as the burst's guard holds — buffered
amount zero for the channel-open burst, channel open *and* buffered amount
zero for resume bursts — incrementing the sent counter by 65535 per
successful send (`sent = messageSize * sends`); the loop stops as soon as
the buffered amount becomes nonzero or a send throws (a caught, non-fatal
stop), and a resume burst additionally stops when the channel is no longer
open. -/
theorem c1_send_bursts_guarded (env : ChannelEnv) (fuel : Nat) :
    ((sendLoopOpen env 0 0 fuel).sent
        = messageSize * (sendLoopOpen env 0 0 fuel).sends ∧
      (∀ j, j < (sendLoopOpen env 0 0 fuel).sends →
        env.buffered j = 0 ∧ env.sendOk j = true) ∧
      ((sendLoopOpen env 0 0 fuel).stop = BurstStop.bufferNonzero →
        env.buffered (sendLoopOpen env 0 0 fuel).sends ≠ 0) ∧
      ((sendLoopOpen env 0 0 fuel).stop = BurstStop.sendThrew →
        env.sendOk (sendLoopOpen env 0 0 fuel).sends = false)) ∧
    ((sendLoopResume env 0 0 fuel).sent
        = messageSize * (sendLoopResume env 0 0 fuel).sends ∧
      (∀ j, j < (sendLoopResume env 0 0 fuel).sends →
        env.isOpen j = true ∧ env.buffered j = 0 ∧ env.sendOk j = true) ∧
      ((sendLoopResume env 0 0 fuel).stop = BurstStop.channelClosed →
        env.isOpen (sendLoopResume env 0 0 fuel).sends = false) ∧
      ((sendLoopResume env 0 0 fuel).stop = BurstStop.bufferNonzero →
        env.buffered (sendLoopResume env 0 0 fuel).sends ≠ 0) ∧
      ((sendLoopResume env 0 0 fuel).stop = BurstStop.sendThrew →
        env.sendOk (sendLoopResume env 0 0 fuel).sends = false)) := by
  obtain ⟨h1, h2, h3, h4, h5, h6⟩ := sendLoopOpen_inv env fuel 0 0
  obtain ⟨g1, g2, g3, g4, g5, g6⟩ := sendLoopResume_inv env fuel 0 0
  refine ⟨⟨?_, fun j hj => h3 j (Nat.zero_le j) hj, h4, fun hs => (h5 hs).2⟩,
    ⟨?_, fun j hj => g3 j (Nat.zero_le j) hj, g4,
      fun hs => (g5 hs).2, fun hs => (g6 hs).2.2⟩⟩
  · rw [h2]
    simp
  · rw [g2]
    simp

/-- Witness for the amended C1 theorem: with `envTwoSends` the channel-open
burst performs two sends (buffered amount was zero before each) and stops
with a nonzero buffered amount, having counted `2 * messageSize` bytes. -/
theorem c1_send_bursts_guarded_witness :
    (sendLoopOpen envTwoSends 0 0 10).sent
        = messageSize * (sendLoopOpen envTwoSends 0 0 10).sends ∧
    envTwoSends.buffered (sendLoopOpen envTwoSends 0 0 10).sends ≠ 0 ∧
    envTwoSends.buffered 1 = 0 ∧
    (sendLoopResume envTwoSends 0 0 10).sent
        = messageSize * (sendLoopResume envTwoSends 0 0 10).sends :=
  ⟨(c1_send_bursts_guarded envTwoSends 10).1.1,
   (c1_send_bursts_guarded envTwoSends 10).1.2.2.1 (by decide),
   ((c1_send_bursts_guarded envTwoSends 10).1.2.1 1 (by decide)).1,
   (c1_send_bursts_guarded envTwoSends 10).2.1⟩

/-- Claim C1 fails as stated for resume bursts: with the channel closed, the
buffered amount zero and sends able to succeed, the resume burst sends
nothing and stops — neither because the buffered amount became nonzero nor
because a send threw, contradicting "sends exactly as long as the
buffered-amount indicator is zero". -/
theorem c1_resume_stops_when_closed :
    sendLoopResume envClosedIdle 0 0 5 = ⟨0, 0, BurstStop.channelClosed⟩ ∧
    envClosedIdle.buffered 0 = 0 ∧
    envClosedIdle.sendOk 0 = true :=
  ⟨rfl, rfl, rfl⟩

/-- Claim C2 (amended): resume bursts re-check that the channel is open on
every iteration before sending — no send happens in a resume burst at an
instant where the channel is not open. (The very first burst, started on
channel open, performs no such check; see the counterexample.) -/
theorem c2_resume_rechecks_open (env : ChannelEnv) (fuel : Nat) :
    ∀ j, j < (sendLoopResume env 0 0 fuel).sends → env.isOpen j = true :=
  fun j hj => ((sendLoopResume_inv env fuel 0 0).2.2.1 j (Nat.zero_le j) hj).1

/-- Witness for the amended C2 theorem: `envOpenOneSend` makes the resume
burst perform a send, and the theorem yields that the channel was open at
that iteration. -/
theorem c2_resume_rechecks_open_witness :
    0 < (sendLoopResume envOpenOneSend 0 0 5).sends ∧
    envOpenOneSend.isOpen 0 = true :=
  ⟨by decide, c2_resume_rechecks_open envOpenOneSend 5 0 (by decide)⟩

/-- Claim C2 fails as stated: the first burst does not consult `isOpen` —
with `envClosedOneSend` the channel is never open, yet the channel-open
burst loop performs one send (and counts its bytes). -/
theorem c2_first_burst_sends_when_closed :
    sendLoopOpen envClosedOneSend 0 0 5 = ⟨1, messageSize, BurstStop.bufferNonzero⟩ ∧
    envClosedOneSend.isOpen 0 = false :=
  ⟨rfl, rfl⟩

/-- Every identifier `randomId` generates has exactly the requested length. -/
theorem randomId_length (len : Nat) (pick : Nat → Nat) :
    (randomId len pick).length = len := by
  show ((List.range len).map _).length = len
  simp

/-- A locally generated 4-character identifier is never the empty string. -/
theorem randomId_four_ne_empty (pick : Nat → Nat) : randomId 4 pick ≠ "" := by
  intro h
  have h4 : (randomId 4 pick).length = 4 := randomId_length 4 pick
  rw [h] at h4
  exact absurd h4 (by decide)

/-- Claim C10: when the remote identifier read from standard input equals the
locally generated identifier (`randomId 4`), `main` prints the invalid-id
diagnostic and returns status 0 without creating a session or data channel
and without running the benchmark loop. -/
theorem c10_self_id_early_exit (pick : Nat → Nat) (b : Bool) :
    mainRun true (randomId 4 pick) (randomId 4 pick) b =
      ⟨0, false, true, false, false, true⟩ := by
  simp [mainRun, randomId_four_ne_empty pick]

/-- Claim C8: if the signaling transport's `onError` fires before `onOpen`,
`wsFuture.get()` throws, and the program exits with nonzero status (`-1`)
without ever attempting to read the remote-identifier input (and the
top-level catch still clears the registry). -/
theorem c8_ws_error_before_open (rest : List WsEvent) (remoteId localId : String)
    (b : Bool) :
    ∃ r, mainWithSignaling (WsEvent.errored :: rest) remoteId localId b = some r ∧
      r.exitCode ≠ 0 ∧ r.readRemoteId = false ∧ r.clearedRegistry = true :=
  ⟨⟨-1, true, false, false, false, false⟩, rfl, by decide, rfl, rfl⟩

/-- Claim C7 (amended): the signaling-failure path, the normal
end-of-benchmark path and the benchmark exception path all clear both
registry mappings before exiting — but the two early returns taken after
reading the remote identifier (empty identifier, identifier equal to the
local one) exit without executing the clears. -/
theorem c7_cleanup_on_main_paths (remoteId localId : String) (b : Bool) :
    (mainRun false remoteId localId b).clearedRegistry = true ∧
    (remoteId ≠ "" → remoteId ≠ localId →
      (mainRun true remoteId localId b).clearedRegistry = true) ∧
    (remoteId = "" → (mainRun true remoteId localId b).clearedRegistry = false) ∧
    (remoteId ≠ "" → remoteId = localId →
      (mainRun true remoteId localId b).clearedRegistry = false) := by
  refine ⟨rfl, ?_, ?_, ?_⟩
  · intro h1 h2
    cases b <;> simp [mainRun, h1, h2]
  · intro h1
    simp [mainRun, h1]
  · intro h1 h2
    subst h2
    simp [mainRun, h1]

/-- Witness for the amended C7 theorem on the normal path. -/
theorem c7_cleanup_on_main_paths_witness :
    (mainRun true "xy" "ab" true).clearedRegistry = true :=
  (c7_cleanup_on_main_paths "xy" "ab" true).2.1 (by decide) (by decide)

/-- Claim C7 fails as stated: the early exit on an empty remote identifier is
a top-level termination path (status 0) that does not clear the registry
mappings. -/
theorem c7_empty_id_exit_skips_cleanup :
    mainRun true "" "abcd" true = ⟨0, false, true, false, false, false⟩ ∧
    (mainRun true "" "abcd" true).clearedRegistry = false :=
  ⟨rfl, rfl⟩

/-- Witness for C9 at the concrete benchmark message. -/
theorem c9_receive_accounting_witness :
    onMessageHandler (ChannelPayload.binaryData messageData) ⟨0, 0⟩ =
      ⟨0 + (if (ChannelPayload.binaryData messageData).isBinary
          then (ChannelPayload.binaryData messageData).byteLength else 0), 0⟩ :=
  c9_receive_accounting (ChannelPayload.binaryData messageData) ⟨0, 0⟩

/-- Witness for C8 at a concrete event trace and inputs. -/
theorem c8_ws_error_before_open_witness :
    ∃ r, mainWithSignaling [WsEvent.errored] "xy" "ab" true = some r ∧
      r.exitCode ≠ 0 ∧ r.readRemoteId = false ∧ r.clearedRegistry = true :=
  c8_ws_error_before_open [] "xy" "ab" true

/-- Witness for C10 at a concrete random draw. -/
theorem c10_self_id_early_exit_witness :
    mainRun true (randomId 4 (fun _ => 0)) (randomId 4 (fun _ => 0)) true =
      ⟨0, false, true, false, false, true⟩ :=
  c10_self_id_early_exit (fun _ => 0) true

end ClientBenchmark
